import Mathlib

/-!
# Verification of the TBB desktop-app backend (job store, session manager, orchestrator)

Shallow embedding of `src/backend/src/core/job_manager.py`,
`src/backend/src/core/auth_service.py` and the orchestration code in
`src/backend/api.py`.

Modelling conventions:
* The SQLite `jobs` table is a `List Job`; `SELECT ... fetchone` is `List.find?`
  over the `WHERE` predicate and `UPDATE ... WHERE` is `List.map` with a
  row-updater that edits exactly the rows matched by the `WHERE` clause.
* Python `Optional[str]` columns are `Option String`; Python truthiness of an
  optional string (`if not x:`) is `optTruthy` (`None` and `""` are falsy).
* `progress_percent` (a Python float) is modelled as `ℚ`: every operation the
  code performs on it (storing, comparison, `max`/`min` clamping) is exact.
* Timestamps in the jobs table are opaque ISO strings (`_utc_now_iso()` values
  are passed in as a `now : String` argument); timestamps in the auth layer are
  modelled as `Nat` seconds, since the only operation on them is the order
  comparison `datetime.fromisoformat(expires_at) <= _utc_now()` and ISO-8601
  formatting of UTC datetimes is order-preserving.
* Fallible Python methods (raising `KeyError` / `ValueError` / `RuntimeError`)
  return `Except`.
* JSON round-tripping of the `parameters` column (`json.dumps` on write,
  `json.loads` on read) is the identity on the modelled parameter map.
-/

namespace TBB

/-- The open parameter map of a job (`parameters` JSON column): string keys
with opaque serialized values. -/
abbrev Params := List (String × String)

/-- One row of the `jobs` table (`job_manager.py`, `_init_db`). -/
structure Job where
  job_id : String
  user_id : String
  status : String
  progress_percent : ℚ
  error_message : Option String
  input_file : Option String
  results_csv : Option String
  parameters : Params
  created_at : String
  completed_at : Option String
  output_dir : Option String
deriving DecidableEq, Repr

/-- `VALID_STATUSES` from `job_manager.py`. -/
def VALID_STATUSES : List String := ["queued", "processing", "completed", "failed"]

/-- `status in VALID_STATUSES` (the check done by `_validate_status`). -/
def validStatus (status : String) : Bool := VALID_STATUSES.contains status

/-- Python truthiness of an optional string: `None` and `""` are falsy. -/
def optTruthy : Option String → Bool
  | none => false
  | some s => !s.isEmpty

/-- `x if x is not None else old` — the keep-prior-value idiom of
`update_status_for_user`. -/
def keepIfNone (new old : Option α) : Option α :=
  match new with
  | some v => some v
  | none => old

/-- Errors raised by the job store: `KeyError` for a missing `(user_id, job_id)`
pair, `ValueError` from `_validate_status`, `RuntimeError` from the re-fetch
guards. -/
inductive JobError where
  | unknownJob (job_id user_id : String)
  | invalidStatus (status : String)
  | internalError (msg : String)
deriving DecidableEq, Repr

/-- `get_job_for_user`: `SELECT ... FROM jobs WHERE job_id = ? AND user_id = ?`. -/
def getJobForUser (s : List Job) (user_id job_id : String) : Option Job :=
  s.find? fun j => j.job_id == job_id && j.user_id == user_id

/-- `get_job`: `SELECT ... FROM jobs WHERE job_id = ?` (no user scoping). -/
def getJob (s : List Job) (job_id : String) : Option Job :=
  s.find? fun j => j.job_id == job_id

/-- `create_job`: INSERT of a fresh row with status `"queued"`, progress `0`,
no error and `completed_at = NULL`. -/
def createJob (s : List Job) (user_id job_id : String)
    (input_file results_csv : Option String) (parameters : Params)
    (output_dir : Option String) (now : String) : List Job :=
  s ++ [{ job_id := job_id
          user_id := user_id
          status := "queued"
          progress_percent := 0
          error_message := none
          input_file := input_file
          results_csv := results_csv
          parameters := parameters
          created_at := now
          completed_at := none
          output_dir := output_dir }]

/-- The `final_completed_at` computation of `update_status_for_user`
(lines 343–347): terminal statuses default a falsy `completed_at` to the
update time; non-terminal statuses reset it to `NULL`. -/
def finalCompletedAt (status : String) (completed_at : Option String)
    (now : String) : Option String :=
  let f := if (status == "completed" || status == "failed") && !(optTruthy completed_at)
    then some now else completed_at
  if status == "queued" || status == "processing" then none else f

/-- The progress defaulting of `update_status_for_user` (lines 349–355). -/
def newProgress (status : String) (progress_percent : Option ℚ) (existing : Job) : ℚ :=
  match progress_percent with
  | some p => p
  | none =>
    if status == "completed" then 100
    else if status == "queued" || status == "failed" then existing.progress_percent
    else existing.progress_percent

/-- The row-updater of the `UPDATE jobs SET ... WHERE job_id = ? AND user_id = ?`
statement in `update_status_for_user`: rows matched by the WHERE clause get the
new field values, all other rows are untouched. -/
def jobStatusUpdate (user_id job_id status : String) (new_progress : ℚ)
    (new_error new_input_file new_results_csv : Option String)
    (new_parameters : Params) (final_completed_at new_output_dir : Option String)
    (j : Job) : Job :=
  if j.job_id == job_id && j.user_id == user_id then
    { j with
        status := status
        progress_percent := new_progress
        error_message := new_error
        input_file := new_input_file
        results_csv := new_results_csv
        parameters := new_parameters
        completed_at := final_completed_at
        output_dir := new_output_dir }
  else j

/-- `update_status_for_user` (`job_manager.py` lines 323–389): validate the
status, fetch the existing row, compute the new field values (omitted fields
keep their prior values), write, re-fetch. -/
def updateStatusForUser (s : List Job) (user_id job_id status : String)
    (progress_percent : Option ℚ) (error_message : Option String)
    (input_file : Option String) (parameters : Option Params)
    (output_dir results_csv : Option String) (completed_at : Option String)
    (now : String) : Except JobError (List Job × Job) :=
  if !(validStatus status) then .error (.invalidStatus status)
  else
    match getJobForUser s user_id job_id with
    | none => .error (.unknownJob job_id user_id)
    | some existing =>
      let final_completed_at := finalCompletedAt status completed_at now
      let new_progress := newProgress status progress_percent existing
      let new_input_file := keepIfNone input_file existing.input_file
      let new_output_dir := keepIfNone output_dir existing.output_dir
      let new_results_csv := keepIfNone results_csv existing.results_csv
      let new_parameters :=
        match parameters with
        | some p => p
        | none => existing.parameters
      let new_error := keepIfNone error_message existing.error_message
      let s' := s.map (jobStatusUpdate user_id job_id status new_progress
        new_error new_input_file new_results_csv new_parameters
        final_completed_at new_output_dir)
      match getJobForUser s' user_id job_id with
      | none => .error (.internalError "Job update failed.")
      | some job => .ok (s', job)

/-- The row-updater of `update_progress_for_user`'s UPDATE statement. -/
def jobProgressUpdate (user_id job_id : String) (progress_percent : ℚ) (j : Job) : Job :=
  if j.job_id == job_id && j.user_id == user_id then
    { j with progress_percent := progress_percent }
  else j

/-- `update_progress_for_user` (`job_manager.py` lines 391–406): pure progress
write, no validation of the value. -/
def updateProgressForUser (s : List Job) (user_id job_id : String)
    (progress_percent : ℚ) : Except JobError (List Job × Job) :=
  match getJobForUser s user_id job_id with
  | none => .error (.unknownJob job_id user_id)
  | some _ =>
    let s' := s.map (jobProgressUpdate user_id job_id progress_percent)
    match getJobForUser s' user_id job_id with
    | none => .error (.internalError "Progress update failed.")
    | some job => .ok (s', job)

/-- `list_jobs_for_user`: optional status filter (validated first), rows of the
user ordered by `created_at` descending (ISO strings compare lexicographically),
truncated to `limit`. -/
def listJobsForUser (s : List Job) (user_id : String) (status : Option String)
    (limit : Nat) : Except JobError (List Job) :=
  match status with
  | some st =>
    if !(validStatus st) then .error (.invalidStatus st)
    else .ok ((((s.filter fun j => j.user_id == user_id && j.status == st).mergeSort
      fun a b => b.created_at ≤ a.created_at).take limit))
  | none =>
    .ok ((((s.filter fun j => j.user_id == user_id).mergeSort
      fun a b => b.created_at ≤ a.created_at).take limit))

/-- `PurePath.suffix` of the final path component: the last-dot extension,
empty for no dot, a leading dot or a trailing dot. -/
def pathSuffix (p : String) : String :=
  let name := ((p.splitOn "/").getLastD "")
  let cs := name.toList
  match (cs.enum.filter fun ic => ic.2 == '.').getLast? with
  | some (i, _) => if 0 < i && i < cs.length - 1 then String.mk (cs.drop i) else ""
  | none => ""

/-- `get_upload_path`: `uploads_dir / user_id / job_id / ("input" + ext)` with
`ext = Path(original_filename).suffix or ".csv"`. -/
def getUploadPath (uploads_dir user_id job_id original_filename : String) : String :=
  let ext := if (pathSuffix original_filename).isEmpty then ".csv"
    else pathSuffix original_filename
  uploads_dir ++ "/" ++ user_id ++ "/" ++ job_id ++ "/input" ++ ext

/-- `save_upload`: writes the bytes under the namespaced path, then marks the
job `queued` with `input_file` set (all other update arguments at their `None`
defaults). -/
def saveUpload (s : List Job) (uploads_dir user_id job_id original_filename : String)
    (now : String) : Except JobError (List Job × String) :=
  let path := getUploadPath uploads_dir user_id job_id original_filename
  (updateStatusForUser s user_id job_id "queued" none none (some path) none
    none none none now).map fun r => (r.1, path)

/-- One job-store operation, for reasoning about arbitrary operation
sequences. Error results leave the store unchanged (the Python methods raise
before the UPDATE in every error case). -/
inductive JobOp where
  | create (user_id job_id : String) (input_file results_csv : Option String)
      (parameters : Params) (output_dir : Option String) (now : String)
  | updateStatus (user_id job_id status : String) (progress_percent : Option ℚ)
      (error_message input_file : Option String) (parameters : Option Params)
      (output_dir results_csv completed_at : Option String) (now : String)
  | updateProgress (user_id job_id : String) (progress_percent : ℚ)
  | saveUpload (uploads_dir user_id job_id original_filename now : String)
deriving DecidableEq, Repr

/-- Apply one operation to the store; a raised error leaves the store as it was. -/
def applyOp (s : List Job) : JobOp → List Job
  | .create u jid f r pa o now => createJob s u jid f r pa o now
  | .updateStatus u jid st prog err f pa o r c now =>
    match updateStatusForUser s u jid st prog err f pa o r c now with
    | .ok (s', _) => s'
    | .error _ => s
  | .updateProgress u jid p =>
    match updateProgressForUser s u jid p with
    | .ok (s', _) => s'
    | .error _ => s
  | .saveUpload d u jid f now =>
    match saveUpload s d u jid f now with
    | .ok (s', _) => s'
    | .error _ => s

/-- Run a sequence of job-store operations. -/
def runOps (s : List Job) (ops : List JobOp) : List Job :=
  ops.foldl applyOp s

/-- The spec invariant on one row: `completed_at` is non-null iff the status is
terminal. -/
def completedIffTerminal (j : Job) : Prop :=
  j.completed_at.isSome = true ↔ (j.status = "completed" ∨ j.status = "failed")

instance (j : Job) : Decidable (completedIffTerminal j) := by
  unfold completedIffTerminal; infer_instance

/-- The invariant over the whole store. -/
def storeInv (s : List Job) : Prop :=
  ∀ j ∈ s, completedIffTerminal j

instance (s : List Job) : Decidable (storeInv s) := by
  unfold storeInv; infer_instance

/-! ## Session manager (`auth_service.py` + the `refresh_sessions`/`users`
tables of `job_manager.py`)

JWT encoding/decoding is cryptographic and out of scope: a token is modelled
by its decoded claim set (the fields `auth_service.py` actually reads), and
the library's signature/expiry verification inside `_decode` is the
precondition that the claim set is the one that was encoded. -/

/-- One row of the `users` table, restricted to the columns the session
manager reads. -/
structure User where
  user_id : String
  email : Option String
  role : String
  is_active : Bool
deriving DecidableEq, Repr

/-- One row of the `refresh_sessions` table. Timestamps are `Nat` seconds
(ISO formatting of UTC datetimes is order-preserving, and the stored
`revoked_at`/`created_at` strings are never empty, so Python truthiness of
`revoked_at` is `Option.isSome`). -/
structure RefreshSession where
  jti : String
  user_id : String
  expires_at : Nat
  created_at : Nat
  revoked_at : Option Nat
  replaced_by_jti : Option String
deriving DecidableEq, Repr

/-- The persistent state the session manager touches. -/
structure AuthState where
  users : List User
  sessions : List RefreshSession
deriving DecidableEq, Repr

/-- `get_user_by_id`. -/
def getUserById (st : AuthState) (user_id : String) : Option User :=
  st.users.find? fun u => u.user_id == user_id

/-- `get_refresh_session`: `SELECT ... WHERE jti = ?`. -/
def getRefreshSession (st : AuthState) (jti : String) : Option RefreshSession :=
  st.sessions.find? fun s => s.jti == jti

/-- `create_refresh_session`: INSERT with `revoked_at = NULL`,
`replaced_by_jti = NULL`. -/
def createRefreshSession (st : AuthState) (jti user_id : String)
    (expires_at now : Nat) : AuthState :=
  { st with sessions := st.sessions ++
      [{ jti := jti
         user_id := user_id
         expires_at := expires_at
         created_at := now
         revoked_at := none
         replaced_by_jti := none }] }

/-- The row-updater of `revoke_refresh_session`'s
`UPDATE refresh_sessions SET revoked_at = ?,
replaced_by_jti = COALESCE(?, replaced_by_jti) WHERE jti = ?`. Note that
`revoked_at` is stamped with the current time unconditionally, also on an
already-revoked session. -/
def revokeUpdater (jti : String) (replaced_by_jti : Option String) (now : Nat)
    (s : RefreshSession) : RefreshSession :=
  if s.jti == jti then
    { s with
        revoked_at := some now
        replaced_by_jti :=
          match replaced_by_jti with
          | some v => some v
          | none => s.replaced_by_jti }
  else s

/-- `revoke_refresh_session` (`job_manager.py` lines 243–253). -/
def revokeRefreshSession (st : AuthState) (jti : String)
    (replaced_by_jti : Option String) (now : Nat) : AuthState :=
  { st with sessions := st.sessions.map (revokeUpdater jti replaced_by_jti now) }

/-- The decoded claim set of a token, restricted to the claims
`auth_service.py` reads after decoding (`token_type`, `jti`, `sub`). -/
structure TokenClaims where
  sub : String
  token_type : String
  jti : Option String
deriving DecidableEq, Repr

/-- A token pair as returned by `issue_token_pair`, with each token given by
its claim set. -/
structure TokenPair where
  access : TokenClaims
  refresh : TokenClaims
  expires_in : Nat
deriving DecidableEq, Repr

/-- `settings.access_token_ttl_minutes` default. -/
def accessTokenTtlMinutes : Nat := 30

/-- `settings.refresh_token_ttl_days` default. -/
def refreshTokenTtlDays : Nat := 14

/-- `now + timedelta(days=settings.refresh_token_ttl_days)` in seconds. -/
def refreshExpiry (now : Nat) : Nat := now + refreshTokenTtlDays * 86400

/-- `issue_token_pair`: builds the two claim sets with fresh jtis (passed in as
arguments, as they are fresh UUIDs) and persists a `RefreshSession` for the
refresh jti; access issuance persists nothing. -/
def issueTokenPair (st : AuthState) (user : User) (access_jti refresh_jti : String)
    (now : Nat) : AuthState × TokenPair :=
  let refresh_exp := refreshExpiry now
  let st' := createRefreshSession st refresh_jti user.user_id refresh_exp now
  (st',
   { access := { sub := user.user_id, token_type := "access", jti := some access_jti }
     refresh := { sub := user.user_id, token_type := "refresh", jti := some refresh_jti }
     expires_in := accessTokenTtlMinutes * 60 })

/-- The `ValueError`s of the session manager. -/
inductive AuthError where
  | invalidTokenType
  | missingJti
  | sessionNotFound
  | sessionRevoked
  | sessionExpired
  | userNotActive
deriving DecidableEq, Repr

/-- `refresh_tokens` (`auth_service.py` lines 137–164): check token type and
jti, look up the session, refuse revoked/expired sessions and inactive users;
on success issue a new pair (persisting its session) and then revoke the old
session with `replaced_by_jti` pointing at the new refresh jti. -/
def refreshTokens (st : AuthState) (claims : TokenClaims)
    (access_jti refresh_jti : String) (now : Nat) :
    Except AuthError (AuthState × TokenPair) :=
  if claims.token_type ≠ "refresh" then .error .invalidTokenType
  else
    match claims.jti with
    | none => .error .missingJti
    | some jti =>
      if jti == "" then .error .missingJti
      else
        match getRefreshSession st jti with
        | none => .error .sessionNotFound
        | some session =>
          if session.revoked_at.isSome then .error .sessionRevoked
          else if session.expires_at ≤ now then .error .sessionExpired
          else
            match getUserById st session.user_id with
            | none => .error .userNotActive
            | some user =>
              if !user.is_active then .error .userNotActive
              else
                let r := issueTokenPair st user access_jti refresh_jti now
                let st2 := revokeRefreshSession r.1 jti r.2.refresh.jti now
                .ok (st2, r.2)

/-- `revoke_refresh_token` (`auth_service.py` lines 166–175): check token type
and jti, then revoke the session by jti (no `replaced_by_jti`); succeeds even
for an already-revoked or unknown session. -/
def revokeRefreshToken (st : AuthState) (claims : TokenClaims) (now : Nat) :
    Except AuthError AuthState :=
  if claims.token_type ≠ "refresh" then .error .invalidTokenType
  else
    match claims.jti with
    | none => .error .missingJti
    | some jti =>
      if jti == "" then .error .missingJti
      else .ok (revokeRefreshSession st jti none now)

/-! ## Background execution orchestrator (`api.py`) -/

/-- The HTTP-level failures of the `/process/{job_id}` handler. -/
inductive ApiError where
  | jobNotFound (job_id : String)
  | jobNotProcessable (job_id status : String)
  | internal
deriving DecidableEq, Repr

instance {ε α : Type} [DecidableEq ε] [DecidableEq α] : DecidableEq (Except ε α) :=
  fun a b =>
    match a, b with
    | .ok x, .ok y => decidable_of_iff (x = y) (by simp)
    | .error x, .error y => decidable_of_iff (x = y) (by simp)
    | .ok _, .error _ => isFalse (by simp)
    | .error _, .ok _ => isFalse (by simp)

/-- The body of a successful `ProcessResponse`. -/
structure ProcessResponse where
  job_id : String
  status : String
  progress_percent : ℚ
deriving DecidableEq, Repr

/-- Outcome of one `/process/{job_id}` request: the store afterwards, the
response or error, and whether `_run_analysis` was scheduled as a background
task. -/
structure ProcessOutcome where
  state : List Job
  result : Except ApiError ProcessResponse
  scheduled : Bool
deriving DecidableEq, Repr

/-- `process_job` (`api.py` lines 359–385): 404 if the job is not owned by the
caller, 400 unless it is `queued`; otherwise synchronously mark it
`processing` at progress 1 (passing `error_message=None`, the keep-existing
default of `update_status_for_user`) and schedule `_run_analysis`. -/
def processJob (s : List Job) (user_id job_id : String) (now : String) :
    ProcessOutcome :=
  match getJobForUser s user_id job_id with
  | none => ⟨s, .error (.jobNotFound job_id), false⟩
  | some job =>
    if job.status ≠ "queued" then
      ⟨s, .error (.jobNotProcessable job_id job.status), false⟩
    else
      match updateStatusForUser s user_id job_id "processing" (some 1) none
        none none none none none now with
      | .ok (s', _) => ⟨s', .ok ⟨job_id, "processing", 1⟩, true⟩
      | .error _ => ⟨s, .error .internal, false⟩

/-- The `except` branch of `_run_analysis` (`api.py` lines 564–575): re-fetch
the job, keep its parameter map, and mark it `failed` with the exception
message and progress 100. -/
def runAnalysisFailure (s : List Job) (user_id job_id : String) (m : String)
    (now : String) : Except JobError (List Job × Job) :=
  let parameters :=
    match getJobForUser s user_id job_id with
    | some existing => existing.parameters
    | none => []
  updateStatusForUser s user_id job_id "failed" (some 100) (some m) none
    (some parameters) none none none now

/-- The clamp applied by `_run_analysis`'s `progress_callback`
(`api.py` line 520): `max(10.0, min(95.0, float(progress)))`. -/
def clampProgress (p : ℚ) : ℚ := max 10 (min 95 p)

/-- `progress_callback` (`api.py` lines 519–522): clamp the reported value to
`[10, 95]` and write it through `update_progress_for_user`. -/
def progressCallback (s : List Job) (user_id job_id : String) (progress : ℚ) :
    Except JobError (List Job × Job) :=
  updateProgressForUser s user_id job_id (clampProgress progress)

/-- The row-updater `update_status_for_user` applies, with the new field
values computed from the first row matched by `(user_id, job_id)`. -/
def statusUpdaterFor (u jid st : String) (prog : Option ℚ) (err f : Option String)
    (pa : Option Params) (o r c : Option String) (now : String) (ex : Job) :
    Job → Job :=
  jobStatusUpdate u jid st (newProgress st prog ex) (keepIfNone err ex.error_message)
    (keepIfNone f ex.input_file) (keepIfNone r ex.results_csv)
    (match pa with | some p => p | none => ex.parameters)
    (finalCompletedAt st c now) (keepIfNone o ex.output_dir)

/-! ## Concrete fixtures used to instantiate the theorems -/

/-- A queued job that carries a leftover error message. -/
def sampleQueued : Job where
  job_id := "J"
  user_id := "U"
  status := "queued"
  progress_percent := 0
  error_message := some "old failure"
  input_file := some "f.csv"
  results_csv := none
  parameters := [("dataset_name", "d")]
  created_at := "t0"
  completed_at := none
  output_dir := none

/-- A job that already reached the terminal status `completed`. -/
def sampleCompleted : Job where
  job_id := "J"
  user_id := "U"
  status := "completed"
  progress_percent := 100
  error_message := none
  input_file := some "f.csv"
  results_csv := some "out.csv"
  parameters := [("dataset_name", "d")]
  created_at := "t0"
  completed_at := some "t1"
  output_dir := some "outdir"

/-- A job in the middle of an execution attempt. -/
def sampleProcessing : Job where
  job_id := "J"
  user_id := "U"
  status := "processing"
  progress_percent := 40
  error_message := none
  input_file := some "f.csv"
  results_csv := none
  parameters := [("dataset_name", "d"), ("sample_count", "3")]
  created_at := "t0"
  completed_at := none
  output_dir := none

/-- A job owned by a different user. -/
def otherUsersJob : Job where
  job_id := "J2"
  user_id := "B"
  status := "queued"
  progress_percent := 0
  error_message := none
  input_file := none
  results_csv := none
  parameters := []
  created_at := "t1"
  completed_at := none
  output_dir := none

/-- An active user row. -/
def sampleUser : User := ⟨"U", none, "user", true⟩

/-- A live (unrevoked, unexpired at times < 1000) refresh session. -/
def sampleSession : RefreshSession := ⟨"j1", "U", 1000, 0, none, none⟩

/-- Auth state holding `sampleUser` and `sampleSession`. -/
def sampleAuthState : AuthState := ⟨[sampleUser], [sampleSession]⟩

/-- The decoded claim set of the refresh token of `sampleSession`. -/
def sampleRefreshClaims : TokenClaims := ⟨"U", "refresh", some "j1"⟩

/-! ## Lemmas about the job store -/

lemma jobStatusUpdate_job_id (u jid st : String) (np : ℚ)
    (ne nf nr : Option String) (npa : Params) (nc nod : Option String) (j : Job) :
    (jobStatusUpdate u jid st np ne nf nr npa nc nod j).job_id = j.job_id := by
  unfold jobStatusUpdate; split <;> rfl

lemma jobStatusUpdate_user_id (u jid st : String) (np : ℚ)
    (ne nf nr : Option String) (npa : Params) (nc nod : Option String) (j : Job) :
    (jobStatusUpdate u jid st np ne nf nr npa nc nod j).user_id = j.user_id := by
  unfold jobStatusUpdate; split <;> rfl

lemma jobProgressUpdate_job_id (u jid : String) (p : ℚ) (j : Job) :
    (jobProgressUpdate u jid p j).job_id = j.job_id := by
  unfold jobProgressUpdate; split <;> rfl

lemma jobProgressUpdate_user_id (u jid : String) (p : ℚ) (j : Job) :
    (jobProgressUpdate u jid p j).user_id = j.user_id := by
  unfold jobProgressUpdate; split <;> rfl

/-- An UPDATE row-mapper that preserves the key columns commutes with the
scoped SELECT. -/
lemma getJobForUser_map (s : List Job) (f : Job → Job)
    (hid : ∀ j, (f j).job_id = j.job_id) (hus : ∀ j, (f j).user_id = j.user_id)
    (u jid : String) :
    getJobForUser (s.map f) u jid = (getJobForUser s u jid).map f := by
  unfold getJobForUser
  rw [List.find?_map]
  have hp : ((fun j : Job => j.job_id == jid && j.user_id == u) ∘ f) =
      fun j : Job => j.job_id == jid && j.user_id == u := by
    funext j
    simp [Function.comp, hid j, hus j]
  rw [hp]

lemma jobStatusUpdate_matched {u jid : String} {j : Job}
    (h1 : j.job_id = jid) (h2 : j.user_id = u)
    (st : String) (np : ℚ) (ne nf nr : Option String) (npa : Params)
    (nc nod : Option String) :
    jobStatusUpdate u jid st np ne nf nr npa nc nod j =
      { j with
          status := st
          progress_percent := np
          error_message := ne
          input_file := nf
          results_csv := nr
          parameters := npa
          completed_at := nc
          output_dir := nod } := by
  simp [jobStatusUpdate, h1, h2]

lemma jobProgressUpdate_matched {u jid : String} {j : Job}
    (h1 : j.job_id = jid) (h2 : j.user_id = u) (p : ℚ) :
    jobProgressUpdate u jid p j = { j with progress_percent := p } := by
  simp [jobProgressUpdate, h1, h2]

lemma updateStatusForUser_ok {s : List Job} {u jid st : String} {ex : Job}
    (prog : Option ℚ) (err f : Option String) (pa : Option Params)
    (o r c : Option String) (now : String)
    (hv : validStatus st = true) (hex : getJobForUser s u jid = some ex) :
    updateStatusForUser s u jid st prog err f pa o r c now =
      .ok (s.map (statusUpdaterFor u jid st prog err f pa o r c now ex),
           statusUpdaterFor u jid st prog err f pa o r c now ex ex) := by
  have hmap := getJobForUser_map s (statusUpdaterFor u jid st prog err f pa o r c now ex)
    (jobStatusUpdate_job_id u jid st _ _ _ _ _ _ _)
    (jobStatusUpdate_user_id u jid st _ _ _ _ _ _ _) u jid
  unfold updateStatusForUser
  unfold statusUpdaterFor at hmap ⊢
  simp only [hv, hex, Bool.not_true, Bool.false_eq_true, if_false, hmap,
    Option.map_some']

lemma updateStatusForUser_invalid {s : List Job} {u jid st : String}
    (prog : Option ℚ) (err f : Option String) (pa : Option Params)
    (o r c : Option String) (now : String) (hv : validStatus st = false) :
    updateStatusForUser s u jid st prog err f pa o r c now =
      .error (.invalidStatus st) := by
  simp [updateStatusForUser, hv]

lemma updateStatusForUser_unknown {s : List Job} {u jid st : String}
    (prog : Option ℚ) (err f : Option String) (pa : Option Params)
    (o r c : Option String) (now : String)
    (hv : validStatus st = true) (hex : getJobForUser s u jid = none) :
    updateStatusForUser s u jid st prog err f pa o r c now =
      .error (.unknownJob jid u) := by
  unfold updateStatusForUser
  rw [hv, hex]
  simp only [Bool.not_true, Bool.false_eq_true, if_false]

lemma updateProgressForUser_ok {s : List Job} {u jid : String} {ex : Job}
    (p : ℚ) (hex : getJobForUser s u jid = some ex) :
    updateProgressForUser s u jid p =
      .ok (s.map (jobProgressUpdate u jid p), jobProgressUpdate u jid p ex) := by
  have hmap := getJobForUser_map s (jobProgressUpdate u jid p)
    (jobProgressUpdate_job_id u jid p) (jobProgressUpdate_user_id u jid p) u jid
  unfold updateProgressForUser
  simp only [hex, hmap, Option.map_some']

lemma updateProgressForUser_unknown {s : List Job} {u jid : String}
    (p : ℚ) (hex : getJobForUser s u jid = none) :
    updateProgressForUser s u jid p = .error (.unknownJob jid u) := by
  unfold updateProgressForUser
  rw [hex]

lemma validStatus_cases {st : String} (h : validStatus st = true) :
    st = "queued" ∨ st = "processing" ∨ st = "completed" ∨ st = "failed" := by
  simpa [validStatus, VALID_STATUSES] using h

lemma finalCompletedAt_nonterminal {st : String}
    (h : st = "queued" ∨ st = "processing") (c : Option String) (now : String) :
    finalCompletedAt st c now = none := by
  rcases h with h | h <;> subst h <;> simp [finalCompletedAt]

lemma finalCompletedAt_terminal_isSome {st : String}
    (h : st = "completed" ∨ st = "failed") (c : Option String) (now : String) :
    (finalCompletedAt st c now).isSome = true := by
  rcases h with h | h <;> subst h <;>
    cases c with
    | none => simp [finalCompletedAt, optTruthy]
    | some x =>
      by_cases hx : x.isEmpty <;> simp [finalCompletedAt, optTruthy, hx]

lemma finalCompletedAt_terminal_default {st : String}
    (h : st = "completed" ∨ st = "failed") (now : String) :
    finalCompletedAt st none now = some now := by
  rcases h with h | h <;> subst h <;> simp [finalCompletedAt, optTruthy]

lemma finalCompletedAt_iff {st : String} (hv : validStatus st = true)
    (c : Option String) (now : String) :
    (finalCompletedAt st c now).isSome = true ↔
      (st = "completed" ∨ st = "failed") := by
  rcases validStatus_cases hv with h | h | h | h
  · rw [h, finalCompletedAt_nonterminal (Or.inl rfl)]; decide
  · rw [h, finalCompletedAt_nonterminal (Or.inr rfl)]; decide
  · rw [h]
    simp [finalCompletedAt_terminal_isSome (Or.inl rfl) c now]
  · rw [h]
    simp [finalCompletedAt_terminal_isSome (Or.inr rfl) c now]

/-- Full inversion of a successful `update_status_for_user`: the status was
valid, the job existed, the store is mapped by the row-updater, and the
returned job is the prior row with exactly the computed fields replaced. -/
lemma updateStatusForUser_ok_inv {s s' : List Job} {u jid st : String} {job : Job}
    {prog : Option ℚ} {err f : Option String} {pa : Option Params}
    {o r c : Option String} {now : String}
    (hok : updateStatusForUser s u jid st prog err f pa o r c now =
      .ok (s', job)) :
    validStatus st = true ∧ ∃ ex, getJobForUser s u jid = some ex ∧
      s' = s.map (statusUpdaterFor u jid st prog err f pa o r c now ex) ∧
      job = { ex with
              status := st
              progress_percent := newProgress st prog ex
              error_message := keepIfNone err ex.error_message
              input_file := keepIfNone f ex.input_file
              results_csv := keepIfNone r ex.results_csv
              parameters := pa.getD ex.parameters
              completed_at := finalCompletedAt st c now
              output_dir := keepIfNone o ex.output_dir } := by
  cases hv : validStatus st with
  | false =>
    rw [updateStatusForUser_invalid prog err f pa o r c now hv] at hok
    exact Except.noConfusion hok
  | true =>
    cases hex : getJobForUser s u jid with
    | none =>
      rw [updateStatusForUser_unknown prog err f pa o r c now hv hex] at hok
      exact Except.noConfusion hok
    | some ex =>
      rw [updateStatusForUser_ok prog err f pa o r c now hv hex] at hok
      obtain ⟨hs', hjob⟩ := Prod.mk.injEq .. ▸ Except.ok.inj hok
      have hpred := List.find?_some hex
      simp only [Bool.and_eq_true, beq_iff_eq] at hpred
      refine ⟨rfl, ex, rfl, hs'.symm, ?_⟩
      rw [← hjob]
      unfold statusUpdaterFor
      rw [jobStatusUpdate_matched hpred.1 hpred.2]
      cases pa <;> rfl

/-- The invariant after one successful `update_status_for_user`. -/
lemma storeInv_updateStatus {s s' : List Job} {u jid st : String} {job : Job}
    {prog : Option ℚ} {err f : Option String} {pa : Option Params}
    {o r c : Option String} {now : String} (h : storeInv s)
    (hok : updateStatusForUser s u jid st prog err f pa o r c now =
      .ok (s', job)) :
    storeInv s' := by
  obtain ⟨hv, ex, hex, hs', hjob⟩ := updateStatusForUser_ok_inv hok
  subst hs'
  intro x hx
  rcases List.mem_map.mp hx with ⟨y, hy, rfl⟩
  unfold statusUpdaterFor jobStatusUpdate
  split
  · unfold completedIffTerminal
    exact finalCompletedAt_iff hv c now
  · exact h y hy

lemma storeInv_createJob {s : List Job} (h : storeInv s)
    (u jid : String) (f r : Option String) (pa : Params) (od : Option String)
    (now : String) : storeInv (createJob s u jid f r pa od now) := by
  intro j hj
  rcases List.mem_append.mp hj with hj | hj
  · exact h j hj
  · rcases List.mem_singleton.mp hj with rfl
    unfold completedIffTerminal
    simp

lemma storeInv_updateProgress {s s' : List Job} {u jid : String} {job : Job}
    {p : ℚ} (h : storeInv s)
    (hok : updateProgressForUser s u jid p = .ok (s', job)) : storeInv s' := by
  cases hex : getJobForUser s u jid with
  | none =>
    rw [updateProgressForUser_unknown p hex] at hok
    exact Except.noConfusion hok
  | some ex =>
    rw [updateProgressForUser_ok p hex] at hok
    obtain ⟨hs', _⟩ := Prod.mk.injEq .. ▸ Except.ok.inj hok
    rw [← hs']
    intro x hx
    rcases List.mem_map.mp hx with ⟨y, hy, rfl⟩
    unfold jobProgressUpdate
    split
    · exact h y hy
    · exact h y hy

lemma storeInv_saveUpload {s s' : List Job} {d u jid fn now : String} {pth : String}
    (h : storeInv s) (hok : saveUpload s d u jid fn now = .ok (s', pth)) :
    storeInv s' := by
  simp only [saveUpload] at hok
  cases hr : updateStatusForUser s u jid "queued" none none
      (some (getUploadPath d u jid fn)) none none none none now with
  | error e => rw [hr] at hok; simp [Except.map] at hok
  | ok pr =>
    obtain ⟨s2, j2⟩ := pr
    rw [hr] at hok
    simp only [Except.map] at hok
    obtain ⟨hs', _⟩ := Prod.mk.injEq .. ▸ Except.ok.inj hok
    rw [← hs']
    exact storeInv_updateStatus h hr

/-- The invariant is preserved by every single store operation. -/
lemma storeInv_applyOp {s : List Job} (h : storeInv s) (op : JobOp) :
    storeInv (applyOp s op) := by
  cases op with
  | create u jid f r pa od now => exact storeInv_createJob h u jid f r pa od now
  | updateStatus u jid st prog err f pa o r c now =>
    simp only [applyOp]
    split
    · next s' job heq => exact storeInv_updateStatus h heq
    · exact h
  | updateProgress u jid p =>
    simp only [applyOp]
    split
    · next s' job heq => exact storeInv_updateProgress h heq
    · exact h
  | saveUpload d u jid fn now =>
    simp only [applyOp]
    split
    · next s' pth heq => exact storeInv_saveUpload h heq
    · exact h

lemma storeInv_runOps {s : List Job} (h : storeInv s) (ops : List JobOp) :
    storeInv (runOps s ops) := by
  induction ops generalizing s with
  | nil => exact h
  | cons op rest ih => exact ih (storeInv_applyOp h op)

/-! ## The claims -/

/-- C1: for every job and every sequence of job-store operations
(`create_job`, `update_status_for_user`, `update_progress_for_user`,
`save_upload`), `completed_at` is non-null iff the status is `completed` or
`failed`; transitioning to `queued`/`processing` resets `completed_at` to
null, and transitioning to a terminal status with no `completed_at` supplied
defaults it to the update time. -/
theorem C1_completed_at_iff_terminal (s : List Job) (ops : List JobOp)
    (h : storeInv s) :
    storeInv (runOps s ops) ∧
    (∀ (u jid st : String) (prog : Option ℚ) (err f : Option String)
      (pa : Option Params) (o r c : Option String) (now : String)
      (s' : List Job) (job : Job),
      updateStatusForUser s u jid st prog err f pa o r c now = .ok (s', job) →
      ((st = "queued" ∨ st = "processing") → job.completed_at = none) ∧
      ((st = "completed" ∨ st = "failed") → c = none →
        job.completed_at = some now)) := by
  refine ⟨storeInv_runOps h ops, ?_⟩
  intro u jid st prog err f pa o r c now s' job hok
  obtain ⟨hv, ex, hex, hs', hjob⟩ := updateStatusForUser_ok_inv hok
  subst hjob
  constructor
  · intro hnt
    show finalCompletedAt st c now = none
    exact finalCompletedAt_nonterminal hnt c now
  · intro hterm hc
    subst hc
    show finalCompletedAt st none now = some now
    exact finalCompletedAt_terminal_default hterm now

theorem C1_completed_at_iff_terminal_witness :
    storeInv ([] : List Job) ∧
    storeInv (runOps []
      [JobOp.create "U" "J" none none [("dataset_name", "d")] none "t0",
       JobOp.saveUpload "up" "U" "J" "data.csv" "t1",
       JobOp.updateStatus "U" "J" "completed" none none none none none none
         none "t2",
       JobOp.updateProgress "U" "J" 42,
       JobOp.updateStatus "U" "J" "queued" none none none none none none
         none "t3"]) :=
  ⟨by decide,
   (C1_completed_at_iff_terminal []
     [JobOp.create "U" "J" none none [("dataset_name", "d")] none "t0",
      JobOp.saveUpload "up" "U" "J" "data.csv" "t1",
      JobOp.updateStatus "U" "J" "completed" none none none none none none
        none "t2",
      JobOp.updateProgress "U" "J" 42,
      JobOp.updateStatus "U" "J" "queued" none none none none none none
        none "t3"] (by decide)).1⟩

/-- C10 (implicit): the store-level transition imposes no ordering constraint:
for every existing job owned by `user_id` and every status in the valid enum,
`update_status_for_user` succeeds regardless of the current status (including
terminal back to `queued`/`processing`); it raises only `UnknownJob` for an
unknown `(user_id, job_id)` pair or `InvalidStatus` for a status outside the
enum. -/
theorem C10_store_transition_unordered :
    (∀ (s : List Job) (u jid st : String) (ex : Job) (prog : Option ℚ)
      (err f : Option String) (pa : Option Params) (o r c : Option String)
      (now : String), validStatus st = true → getJobForUser s u jid = some ex →
      ∃ s' job, updateStatusForUser s u jid st prog err f pa o r c now =
        Except.ok (s', job) ∧ job.status = st) ∧
    (∀ (s : List Job) (u jid st : String) (prog : Option ℚ)
      (err f : Option String) (pa : Option Params) (o r c : Option String)
      (now : String), validStatus st = false →
      updateStatusForUser s u jid st prog err f pa o r c now =
        Except.error (JobError.invalidStatus st)) ∧
    (∀ (s : List Job) (u jid st : String) (prog : Option ℚ)
      (err f : Option String) (pa : Option Params) (o r c : Option String)
      (now : String), validStatus st = true → getJobForUser s u jid = none →
      updateStatusForUser s u jid st prog err f pa o r c now =
        Except.error (JobError.unknownJob jid u)) := by
  refine ⟨?_, ?_, ?_⟩
  · intro s u jid st ex prog err f pa o r c now hv hex
    refine ⟨_, _, updateStatusForUser_ok prog err f pa o r c now hv hex, ?_⟩
    have hpred := List.find?_some hex
    simp only [Bool.and_eq_true, beq_iff_eq] at hpred
    unfold statusUpdaterFor
    rw [jobStatusUpdate_matched hpred.1 hpred.2]
  · intro s u jid st prog err f pa o r c now hv
    exact updateStatusForUser_invalid prog err f pa o r c now hv
  · intro s u jid st prog err f pa o r c now hv hex
    exact updateStatusForUser_unknown prog err f pa o r c now hv hex

theorem C10_store_transition_unordered_witness :
    (validStatus "queued" = true ∧
     getJobForUser [sampleCompleted] "U" "J" = some sampleCompleted) ∧
    (∃ s' job, updateStatusForUser [sampleCompleted] "U" "J" "queued" none none
      none none none none none "t9" = Except.ok (s', job) ∧
      job.status = "queued") :=
  ⟨⟨by decide, by decide⟩,
   C10_store_transition_unordered.1 [sampleCompleted] "U" "J" "queued"
     sampleCompleted none none none none none none none "t9" (by decide)
     (by decide)⟩

/-- C5: starting execution requires `queued`: for every job whose status is
not `queued`, `process_job` fails with the state error and leaves the store
unchanged, and no background task is scheduled. -/
theorem C5_process_rejects_non_queued (s : List Job) (u jid now : String)
    (job : Job) (hex : getJobForUser s u jid = some job)
    (hst : job.status ≠ "queued") :
    processJob s u jid now =
      ⟨s, Except.error (ApiError.jobNotProcessable jid job.status), false⟩ := by
  unfold processJob
  rw [hex]
  simp [hst]

theorem C5_process_rejects_non_queued_witness :
    (getJobForUser [sampleCompleted] "U" "J" = some sampleCompleted ∧
     sampleCompleted.status ≠ "queued") ∧
    processJob [sampleCompleted] "U" "J" "t9" =
      ⟨[sampleCompleted],
       Except.error (ApiError.jobNotProcessable "J" sampleCompleted.status),
       false⟩ :=
  ⟨⟨by decide, by decide⟩,
   C5_process_rejects_non_queued [sampleCompleted] "U" "J" "t9" sampleCompleted
     (by decide) (by decide)⟩

/-- C6 (code bug): `process_job` on a queued job synchronously marks it
`processing` at progress 1 and schedules the computation, but the prior
`error_message` is NOT cleared: the handler passes `error_message=None`, which
`update_status_for_user` interprets as "keep the existing value". -/
theorem C6_processing_mark_keeps_prior_error :
    (processJob [sampleQueued] "U" "J" "t1").state =
      [{ sampleQueued with status := "processing", progress_percent := 1 }] ∧
    (processJob [sampleQueued] "U" "J" "t1").state.map Job.error_message =
      [some "old failure"] ∧
    (processJob [sampleQueued] "U" "J" "t1").result =
      Except.ok ⟨"J", "processing", 1⟩ ∧
    (processJob [sampleQueued] "U" "J" "t1").scheduled = true := by decide

/-- C9 counterexample: `update_progress_for_user` records an out-of-range
value verbatim — progress 150 is stored, violating "progress_percent lies in
[0, 100] at all times". -/
theorem C9_counterexample :
    (updateProgressForUser [sampleQueued] "U" "J" 150).map
        (fun res => res.2.progress_percent) = Except.ok 150 ∧
    ¬((150 : ℚ) ≤ 100) := by decide

/-- C9 amended: `update_progress_for_user` performs no range validation and
records exactly the value it is given; `progress_percent` stays in `[0, 100]`
only when callers supply values in that range. -/
theorem C9_progress_recorded_verbatim (s : List Job) (u jid : String) (p : ℚ)
    (ex : Job) (hex : getJobForUser s u jid = some ex) :
    updateProgressForUser s u jid p =
      Except.ok (s.map (jobProgressUpdate u jid p),
        { ex with progress_percent := p }) := by
  rw [updateProgressForUser_ok p hex]
  have hpred := List.find?_some hex
  simp only [Bool.and_eq_true, beq_iff_eq] at hpred
  rw [jobProgressUpdate_matched hpred.1 hpred.2]

theorem C9_progress_recorded_verbatim_witness :
    (getJobForUser [sampleQueued] "U" "J" = some sampleQueued) ∧
    updateProgressForUser [sampleQueued] "U" "J" 150 =
      Except.ok ([{ sampleQueued with progress_percent := 150 }],
        { sampleQueued with progress_percent := 150 }) :=
  ⟨by decide,
   by
    have h := C9_progress_recorded_verbatim [sampleQueued] "U" "J" 150
      sampleQueued (by decide)
    simpa using h⟩

/-- C8: every progress value reported through the orchestrator's callback is
written as its clamp to `[10, 95]`: out-of-range values are clamped, never
rejected (the callback succeeds for every `p` on an existing job), and
in-range values are written unchanged. -/
theorem C8_progress_callback_clamped (s : List Job) (u jid : String) (p : ℚ)
    (ex : Job) (hex : getJobForUser s u jid = some ex) :
    progressCallback s u jid p =
      Except.ok (s.map (jobProgressUpdate u jid (max 10 (min 95 p))),
        { ex with progress_percent := max 10 (min 95 p) }) ∧
    10 ≤ max 10 (min 95 p) ∧ max 10 (min 95 p) ≤ 95 ∧
    (10 ≤ p → p ≤ 95 → max 10 (min 95 p) = p) := by
  refine ⟨?_, le_max_left 10 _, max_le (by norm_num) (min_le_left _ _), ?_⟩
  · unfold progressCallback clampProgress
    rw [updateProgressForUser_ok (max 10 (min 95 p)) hex]
    have hpred := List.find?_some hex
    simp only [Bool.and_eq_true, beq_iff_eq] at hpred
    rw [jobProgressUpdate_matched hpred.1 hpred.2]
  · intro h1 h2
    rw [min_eq_right h2, max_eq_right h1]

theorem C8_progress_callback_clamped_witness :
    (getJobForUser [sampleQueued] "U" "J" = some sampleQueued) ∧
    (progressCallback [sampleQueued] "U" "J" 150 =
      Except.ok ([{ sampleQueued with progress_percent := 95 }],
        { sampleQueued with progress_percent := 95 }) ∧
     (10 : ℚ) ≤ 95 ∧ (95 : ℚ) ≤ 95) :=
  ⟨by decide,
   by
    have h := C8_progress_callback_clamped [sampleQueued] "U" "J" 150
      sampleQueued (by decide)
    exact ⟨by simpa using h.1, by norm_num, by norm_num⟩⟩

/-- C4 counterexample: the failure path of `_run_analysis` also overwrites
`completed_at` (from null to the failure time), so "only status, error, and
progress are overwritten" is false as stated. -/
theorem C4_counterexample :
    (runAnalysisFailure [sampleProcessing] "U" "J" "boom" "t3").map
        (fun res => res.2.completed_at) = Except.ok (some "t3") ∧
    sampleProcessing.completed_at = none := by decide

/-- C4 amended: a failed execution ends with the job `failed` at progress 100
and `error_message = m`, with the parameter map and every other prior field
(input_file, results_csv, output_dir, created_at, ids) unchanged; besides
status, error and progress only `completed_at` is overwritten (set to the
failure time), and the failure handler returns normally — the exception does
not escape. -/
theorem C4_failure_marks_failed_preserving_context (s : List Job)
    (u jid m now : String) (ex : Job) (hex : getJobForUser s u jid = some ex) :
    runAnalysisFailure s u jid m now =
      Except.ok (s.map (statusUpdaterFor u jid "failed" (some 100) (some m)
          none (some ex.parameters) none none none now ex),
        { ex with
            status := "failed"
            progress_percent := 100
            error_message := some m
            completed_at := some now }) := by
  unfold runAnalysisFailure
  simp only [hex]
  rw [updateStatusForUser_ok (some 100) (some m) none (some ex.parameters)
    none none none now (by decide) hex]
  have hpred := List.find?_some hex
  simp only [Bool.and_eq_true, beq_iff_eq] at hpred
  unfold statusUpdaterFor
  rw [jobStatusUpdate_matched hpred.1 hpred.2]
  rfl

theorem C4_failure_marks_failed_preserving_context_witness :
    (getJobForUser [sampleProcessing] "U" "J" = some sampleProcessing) ∧
    runAnalysisFailure [sampleProcessing] "U" "J" "boom" "t3" =
      Except.ok ([{ sampleProcessing with
                      status := "failed"
                      progress_percent := 100
                      error_message := some "boom"
                      completed_at := some "t3" }],
        { sampleProcessing with
            status := "failed"
            progress_percent := 100
            error_message := some "boom"
            completed_at := some "t3" }) :=
  ⟨by decide,
   by
    have h := C4_failure_marks_failed_preserving_context [sampleProcessing]
      "U" "J" "boom" "t3" sampleProcessing (by decide)
    simpa using h⟩

/-- C2: job access is owner-scoped. With unique job ids (the `job_id` PRIMARY
KEY), for every stored job and every user who is not its owner: the scoped
get returns nothing, a transition (with any valid status) fails with
`UnknownJob`, a progress update fails with `UnknownJob`, and no listing for
that user ever includes the job. -/
theorem C2_owner_scoped (s : List Job) (u : String) (j : Job)
    (huniq : List.Pairwise (fun a b => a.job_id ≠ b.job_id) s)
    (hj : j ∈ s) (hne : j.user_id ≠ u) :
    getJobForUser s u j.job_id = none ∧
    (∀ (st : String) (prog : Option ℚ) (err f : Option String)
      (pa : Option Params) (o r c : Option String) (now : String),
      validStatus st = true →
      updateStatusForUser s u j.job_id st prog err f pa o r c now =
        Except.error (JobError.unknownJob j.job_id u)) ∧
    (∀ p : ℚ, updateProgressForUser s u j.job_id p =
      Except.error (JobError.unknownJob j.job_id u)) ∧
    (∀ (filt : Option String) (lim : Nat) (l : List Job),
      listJobsForUser s u filt lim = Except.ok l → j ∉ l) := by
  have hnone : getJobForUser s u j.job_id = none := by
    unfold getJobForUser
    rw [List.find?_eq_none]
    intro x hx hpx
    simp only [Bool.and_eq_true, beq_iff_eq] at hpx
    by_cases hxj : x = j
    · exact hne (hxj ▸ hpx.2)
    · have hsymm : Symmetric (fun a b : Job => a.job_id ≠ b.job_id) :=
        fun a b hab he => hab he.symm
      exact (huniq.forall hsymm hx hj hxj) hpx.1
  refine ⟨hnone, ?_, ?_, ?_⟩
  · intro st prog err f pa o r c now hv
    exact updateStatusForUser_unknown prog err f pa o r c now hv hnone
  · intro p
    exact updateProgressForUser_unknown p hnone
  · intro filt lim l hl hmem
    have hju : j.user_id = u := by
      cases filt with
      | none =>
        simp only [listJobsForUser] at hl
        obtain rfl := Except.ok.inj hl
        have h1 := List.mem_mergeSort.mp (List.mem_of_mem_take hmem)
        have h2 := (List.mem_filter.mp h1).2
        simpa using h2
      | some st =>
        simp only [listJobsForUser] at hl
        cases hvs : validStatus st with
        | false => rw [hvs] at hl; simp at hl
        | true =>
          rw [hvs] at hl
          simp only [Bool.not_true, Bool.false_eq_true, if_false] at hl
          obtain rfl := Except.ok.inj hl
          have h1 := List.mem_mergeSort.mp (List.mem_of_mem_take hmem)
          have h2 := (List.mem_filter.mp h1).2
          simp only [Bool.and_eq_true, beq_iff_eq] at h2
          exact h2.1
    exact hne hju

theorem C2_owner_scoped_witness :
    (List.Pairwise (fun a b : Job => a.job_id ≠ b.job_id)
        [sampleCompleted, otherUsersJob] ∧
     otherUsersJob ∈ [sampleCompleted, otherUsersJob] ∧
     otherUsersJob.user_id ≠ "U") ∧
    getJobForUser [sampleCompleted, otherUsersJob] "U" otherUsersJob.job_id =
      none :=
  ⟨⟨by decide, by decide, by decide⟩,
   (C2_owner_scoped [sampleCompleted, otherUsersJob] "U" otherUsersJob
     (by decide) (by decide) (by decide)).1⟩

/-! ## Lemmas about the session manager -/

lemma revokeUpdater_jti (jti : String) (rep : Option String) (now : Nat)
    (s : RefreshSession) : (revokeUpdater jti rep now s).jti = s.jti := by
  unfold revokeUpdater; split <;> rfl

lemma revokeUpdater_matched {jti : String} {s : RefreshSession}
    (h : s.jti = jti) (rep : Option String) (now : Nat) :
    revokeUpdater jti rep now s =
      { s with
          revoked_at := some now
          replaced_by_jti :=
            match rep with
            | some v => some v
            | none => s.replaced_by_jti } := by
  simp [revokeUpdater, h]

lemma revokeUpdater_unmatched {jti : String} {s : RefreshSession}
    (h : ¬s.jti = jti) (rep : Option String) (now : Nat) :
    revokeUpdater jti rep now s = s := by
  simp [revokeUpdater, h]

lemma findSession_map (l : List RefreshSession) (f : RefreshSession → RefreshSession)
    (hid : ∀ s, (f s).jti = s.jti) (q : String) :
    (l.map f).find? (fun s => s.jti == q) =
      (l.find? (fun s => s.jti == q)).map f := by
  rw [List.find?_map]
  have hp : ((fun s : RefreshSession => s.jti == q) ∘ f) =
      fun s : RefreshSession => s.jti == q := by
    funext s
    simp [Function.comp, hid s]
  rw [hp]

lemma getRefreshSession_revoke (st : AuthState) (jti : String)
    (rep : Option String) (now : Nat) (q : String) :
    getRefreshSession (revokeRefreshSession st jti rep now) q =
      (getRefreshSession st q).map (revokeUpdater jti rep now) := by
  unfold getRefreshSession revokeRefreshSession
  exact findSession_map _ _ (revokeUpdater_jti jti rep now) q

lemma getRefreshSession_create (st : AuthState) (njti nuid : String)
    (exp now : Nat) (q : String) :
    getRefreshSession (createRefreshSession st njti nuid exp now) q =
      (getRefreshSession st q).or
        (if njti == q then some ⟨njti, nuid, exp, now, none, none⟩ else none) := by
  unfold getRefreshSession createRefreshSession
  rw [List.find?_append]
  congr 1
  cases h : (njti == q : Bool) with
  | false => simp [List.find?_cons, h]
  | true => simp [List.find?_cons, h]

lemma refreshTokens_ok_eq {st : AuthState} {claims : TokenClaims} {jti : String}
    {sess : RefreshSession} {user : User} (a_jti r_jti : String) (now : Nat)
    (htype : claims.token_type = "refresh") (hjti : claims.jti = some jti)
    (hne : jti ≠ "") (hsess : getRefreshSession st jti = some sess)
    (hlive : sess.revoked_at = none) (hexp : now < sess.expires_at)
    (huser : getUserById st sess.user_id = some user)
    (hact : user.is_active = true) :
    refreshTokens st claims a_jti r_jti now =
      Except.ok
        (revokeRefreshSession
          (createRefreshSession st r_jti user.user_id (refreshExpiry now) now)
          jti (some r_jti) now,
         { access := ⟨user.user_id, "access", some a_jti⟩
           refresh := ⟨user.user_id, "refresh", some r_jti⟩
           expires_in := accessTokenTtlMinutes * 60 }) := by
  have hle : ¬(sess.expires_at ≤ now) := by omega
  unfold refreshTokens issueTokenPair
  rw [htype, hjti]
  simp [hne, hsess, hlive, hle, huser, hact]

lemma revokeRefreshToken_ok {claims : TokenClaims} {jti : String}
    (htype : claims.token_type = "refresh") (hjti : claims.jti = some jti)
    (hne : jti ≠ "") (st : AuthState) (now : Nat) :
    revokeRefreshToken st claims now =
      Except.ok (revokeRefreshSession st jti none now) := by
  unfold revokeRefreshToken
  rw [htype, hjti]
  simp [hne]

lemma revokeRefreshToken_badtype {claims : TokenClaims}
    (hty : claims.token_type ≠ "refresh") (st : AuthState) (now : Nat) :
    revokeRefreshToken st claims now = Except.error AuthError.invalidTokenType := by
  unfold revokeRefreshToken
  rw [if_pos hty]

/-- C3: rotation is single-use. For an issued refresh token whose session is
live (not revoked, not expired) and whose subject is active, the first rotate
succeeds: it persists a new live session for the fresh refresh jti and marks
the old session revoked with `replaced_by_jti` equal to the new refresh jti;
afterwards any rotate call with the same token fails with `SessionRevoked`. -/
theorem C3_rotation_single_use (st : AuthState) (claims : TokenClaims)
    (jti a_jti r_jti : String) (now : Nat) (sess : RefreshSession) (user : User)
    (htype : claims.token_type = "refresh") (hjti : claims.jti = some jti)
    (hne : jti ≠ "") (hsess : getRefreshSession st jti = some sess)
    (hlive : sess.revoked_at = none) (hexp : now < sess.expires_at)
    (huser : getUserById st sess.user_id = some user)
    (hact : user.is_active = true) (hfresh : r_jti ≠ jti)
    (hfresh2 : getRefreshSession st r_jti = none) :
    ∃ st2 pair,
      refreshTokens st claims a_jti r_jti now = Except.ok (st2, pair) ∧
      pair.refresh.jti = some r_jti ∧
      getRefreshSession st2 r_jti =
        some ⟨r_jti, user.user_id, refreshExpiry now, now, none, none⟩ ∧
      getRefreshSession st2 jti =
        some { sess with
                 revoked_at := some now
                 replaced_by_jti := some r_jti } ∧
      (∀ (a2 r2 : String) (now2 : Nat),
        refreshTokens st2 claims a2 r2 now2 =
          Except.error AuthError.sessionRevoked) := by
  have hsj : sess.jti = jti := by simpa using List.find?_some hsess
  have hnew : getRefreshSession
      (revokeRefreshSession
        (createRefreshSession st r_jti user.user_id (refreshExpiry now) now)
        jti (some r_jti) now) r_jti =
      some ⟨r_jti, user.user_id, refreshExpiry now, now, none, none⟩ := by
    rw [getRefreshSession_revoke, getRefreshSession_create, hfresh2]
    simp [revokeUpdater, hfresh]
  have hold : getRefreshSession
      (revokeRefreshSession
        (createRefreshSession st r_jti user.user_id (refreshExpiry now) now)
        jti (some r_jti) now) jti =
      some { sess with
               revoked_at := some now
               replaced_by_jti := some r_jti } := by
    rw [getRefreshSession_revoke, getRefreshSession_create, hsess]
    simp [revokeUpdater, hsj]
  refine ⟨_, _,
    refreshTokens_ok_eq a_jti r_jti now htype hjti hne hsess hlive hexp huser hact,
    rfl, hnew, hold, ?_⟩
  intro a2 r2 now2
  unfold refreshTokens
  rw [htype, hjti]
  simp [hne, hold]

theorem C3_rotation_single_use_witness :
    (sampleRefreshClaims.token_type = "refresh" ∧
     sampleRefreshClaims.jti = some "j1" ∧
     getRefreshSession sampleAuthState "j1" = some sampleSession ∧
     sampleSession.revoked_at = none ∧
     (10 : Nat) < sampleSession.expires_at ∧
     getUserById sampleAuthState sampleSession.user_id = some sampleUser ∧
     sampleUser.is_active = true ∧ "r2" ≠ "j1" ∧
     getRefreshSession sampleAuthState "r2" = none) ∧
    (∃ st2 pair,
      refreshTokens sampleAuthState sampleRefreshClaims "a2" "r2" 10 =
        Except.ok (st2, pair) ∧
      pair.refresh.jti = some "r2" ∧
      getRefreshSession st2 "r2" =
        some ⟨"r2", sampleUser.user_id, refreshExpiry 10, 10, none, none⟩ ∧
      getRefreshSession st2 "j1" =
        some { sampleSession with
                 revoked_at := some 10
                 replaced_by_jti := some "r2" } ∧
      (∀ (a2 r2 : String) (now2 : Nat),
        refreshTokens st2 sampleRefreshClaims a2 r2 now2 =
          Except.error AuthError.sessionRevoked)) :=
  ⟨⟨rfl, rfl, by decide, rfl, by decide, by decide, rfl, by decide, by decide⟩,
   C3_rotation_single_use sampleAuthState sampleRefreshClaims "j1" "a2" "r2"
     10 sampleSession sampleUser rfl rfl (by decide) (by decide) rfl
     (by decide) (by decide) rfl (by decide) (by decide)⟩

/-- C7 counterexample: `revoke` is not observably idempotent — a second revoke
at a later clock time re-stamps `revoked_at`, so the stored session state
after the second call differs from its state after the first call. -/
theorem C7_counterexample :
    revokeRefreshToken sampleAuthState sampleRefreshClaims 1 =
      Except.ok ⟨[sampleUser], [{ sampleSession with revoked_at := some 1 }]⟩ ∧
    revokeRefreshToken
        ⟨[sampleUser], [{ sampleSession with revoked_at := some 1 }]⟩
        sampleRefreshClaims 2 =
      Except.ok ⟨[sampleUser], [{ sampleSession with revoked_at := some 2 }]⟩ ∧
    (⟨[sampleUser], [{ sampleSession with revoked_at := some 2 }]⟩ : AuthState) ≠
      ⟨[sampleUser], [{ sampleSession with revoked_at := some 1 }]⟩ := by
  decide

/-- C7 amended: a second `revoke` of the same token always succeeds and
changes nothing except re-stamping `revoked_at` of the matching session with
the second call's time — `replaced_by_jti`, all other sessions and all users
are unchanged, the session stays revoked, and when the two calls carry the
same timestamp the state after the second call equals the state after the
first (idempotent only up to the `revoked_at` timestamp). -/
theorem C7_second_revoke_restamps_revoked_at (st : AuthState)
    (claims : TokenClaims) (jti : String) (now1 now2 : Nat) (st1 : AuthState)
    (hjti : claims.jti = some jti) (hne : jti ≠ "")
    (h1 : revokeRefreshToken st claims now1 = Except.ok st1) :
    revokeRefreshToken st1 claims now2 =
      Except.ok (revokeRefreshSession st1 jti none now2) ∧
    (revokeRefreshSession st1 jti none now2).users = st1.users ∧
    (revokeRefreshSession st1 jti none now2).sessions =
      st1.sessions.map (fun s =>
        if s.jti == jti then { s with revoked_at := some now2 } else s) ∧
    (∀ s1 ∈ st1.sessions, s1.jti = jti →
      s1.revoked_at = some now1 ∧
      (revokeUpdater jti none now2 s1).replaced_by_jti = s1.replaced_by_jti) ∧
    (now2 = now1 → revokeRefreshSession st1 jti none now2 = st1) := by
  have htype : claims.token_type = "refresh" := by
    by_contra hty
    rw [revokeRefreshToken_badtype hty] at h1
    exact Except.noConfusion h1
  have hst1 : st1 = revokeRefreshSession st jti none now1 := by
    rw [revokeRefreshToken_ok htype hjti hne st now1] at h1
    exact (Except.ok.inj h1).symm
  refine ⟨revokeRefreshToken_ok htype hjti hne st1 now2, rfl, ?_, ?_, ?_⟩
  · show st1.sessions.map (revokeUpdater jti none now2) = _
    apply List.map_congr_left
    intro a _
    by_cases h : a.jti = jti
    · rw [revokeUpdater_matched h]
      simp [h]
    · rw [revokeUpdater_unmatched h]
      simp [h]
  · intro s1 hs1 hsj
    subst hst1
    constructor
    · rcases List.mem_map.mp hs1 with ⟨x, hx, rfl⟩
      have hxj : x.jti = jti := by
        rw [← revokeUpdater_jti jti none now1 x]
        exact hsj
      rw [revokeUpdater_matched hxj]
    · by_cases h : s1.jti = jti
      · rw [revokeUpdater_matched h]
      · rw [revokeUpdater_unmatched h]
  · intro h2
    subst h2
    subst hst1
    unfold revokeRefreshSession
    obtain ⟨us, ss⟩ := st
    simp only [List.map_map]
    congr 1
    apply List.map_congr_left
    intro a _
    show revokeUpdater jti none now2 (revokeUpdater jti none now2 a) =
      revokeUpdater jti none now2 a
    by_cases h : a.jti = jti
    · rw [revokeUpdater_matched h, revokeUpdater_matched (show
        ({ a with
            revoked_at := some now2
            replaced_by_jti := a.replaced_by_jti } : RefreshSession).jti = jti
        from h)]
    · rw [revokeUpdater_unmatched h, revokeUpdater_unmatched h]

theorem C7_second_revoke_restamps_revoked_at_witness :
    (sampleRefreshClaims.jti = some "j1" ∧ "j1" ≠ "" ∧
     revokeRefreshToken sampleAuthState sampleRefreshClaims 1 =
       Except.ok ⟨[sampleUser], [{ sampleSession with revoked_at := some 1 }]⟩) ∧
    revokeRefreshToken
        ⟨[sampleUser], [{ sampleSession with revoked_at := some 1 }]⟩
        sampleRefreshClaims 2 =
      Except.ok
        (revokeRefreshSession
          ⟨[sampleUser], [{ sampleSession with revoked_at := some 1 }]⟩
          "j1" none 2) :=
  ⟨⟨rfl, by decide, by decide⟩,
   (C7_second_revoke_restamps_revoked_at sampleAuthState sampleRefreshClaims
     "j1" 1 2 ⟨[sampleUser], [{ sampleSession with revoked_at := some 1 }]⟩
     rfl (by decide) (by decide)).1⟩

end TBB
